import Mathlib

/-!
Verification of the unity-mcp server (src/UnityMcpServer/src/) against its
natural-language specification.  The Python source is shallowly embedded:
pure computations become Lean functions, the environment (file system,
environment variables, the Unity bridge connection) becomes explicit record
parameters, and Python exceptions become `Except` values.
-/

set_option autoImplicit false

/-! ## Python values

Dynamic tool invocation passes Python values around; we model the fragment
the code touches: `None`, booleans, strings, integers, lists and dicts. -/

inductive PyVal where
  | none
  | bool (b : Bool)
  | str (s : String)
  | int (n : Int)
  | list (xs : List PyVal)
  | dict (entries : List (String × PyVal))

/-- A Python dict with string keys, as an association list (first key wins,
matching Python's unique-key dicts). -/
abbrev PyDict := List (String × PyVal)

/-- Python truthiness (`if x:`) for the modelled value fragment. -/
def truthy : PyVal → Bool
  | PyVal.none => false
  | PyVal.bool b => b
  | PyVal.str s => s ≠ ""
  | PyVal.int n => n ≠ 0
  | PyVal.list xs => !xs.isEmpty
  | PyVal.dict d => !d.isEmpty

/-- Python `d.get(key)` returning `Option`: `some v` when the key is present. -/
def dictGet : PyDict → String → Option PyVal
  | [], _ => Option.none
  | (k, v) :: rest, key => if k = key then some v else dictGet rest key

/-- Python `d.get(key, default)`. -/
def dictGetD (d : PyDict) (key : String) (default : PyVal) : PyVal :=
  (dictGet d key).getD default

/-- Python substring test `sub in s`. -/
def pyIn (sub s : String) : Bool :=
  decide (sub.toList <:+: s.toList)

/-! ## The external world

The code reads environment variables and log files and talks to a Unity
bridge connection.  Each becomes an explicit, opaque behaviour record. -/

/-- A Unity bridge connection: `send_command(name, args)` either raises (an
`Except.error` carrying `str(e)`) or returns a response dict. -/
structure Bridge where
  send_command : String → PyDict → Except String PyDict

/-- File-system behaviour: `Path.exists()` and
`open(...).readlines()` (which may raise). -/
structure FileSystem where
  fileExists : String → Bool
  readLines : String → Except String (List String)

/-! ## Backward marker scan

Both log-extraction implementations locate markers with backward `for`
loops of the shape `for i in range(hi, stop, -1): if marker in lines[i]:
break`.  `findLastIn pred lo hi` visits `hi, hi-1, ..., lo` and returns the
first (i.e. largest) index satisfying `pred`, mirroring
`range(hi, lo - 1, -1)`. -/

def findLastIn (pred : Nat → Bool) (lo : Nat) : Nat → Option Nat
  | 0 => if 0 < lo then Option.none else if pred 0 then some 0 else Option.none
  | hi + 1 =>
    if hi + 1 < lo then Option.none
    else if pred (hi + 1) then some (hi + 1)
    else findLastIn pred lo hi

/-- Whether line `i` of `lines` contains `marker` (Python `marker in
lines[i]`); out-of-range indices read as the empty line. -/
def lineContains (lines : List String) (marker : String) (i : Nat) : Bool :=
  pyIn marker (lines.getD i "")

/-- The three literal markers used by the extraction code. -/
def startMarker : String := "EditorCompilation:InvokeCompilationStarted"

def sectionMarker : String := "* Tundra"

def outputMarker : String := "# Output"

/-- The result dict shape `{"success": ..., "message": ...,
"compilation_logs": ...}` produced by every return site of
`parse_compilation_logs` and `compile_project`. -/
structure CompileResult where
  success : Bool
  message : String
  compilation_logs : List String
deriving Repr, DecidableEq

/-- Python `line.strip()`: drop leading and trailing whitespace. -/
def pyStrip (s : String) : String :=
  String.mk
    (((s.data.dropWhile Char.isWhitespace).reverse.dropWhile
      Char.isWhitespace).reverse)

/-- The extraction loop `for i in range(a, b): line = lines[i].strip();
if line: out.append(line)`. -/
def extractEntries (lines : List String) (a b : Nat) : List String :=
  ((List.range' a (b - a)).map (fun i => pyStrip (lines.getD i ""))).filter
    (fun l => l ≠ "")

namespace UnityCompileCore

/-- The marker-scan logic of `UnityCompileCore.parse_compilation_logs`
(unity_compile_core.py lines 90-143), over the in-memory line list. -/
def parse_lines (lines : List String) : CompileResult :=
  let n := lines.length
  match findLastIn (lineContains lines startMarker) 0 (n - 1) with
  | Option.none =>
    ⟨false, "EditorCompilation:InvokeCompilationStarted marker not found", []⟩
  | some s =>
    match findLastIn (lineContains lines sectionMarker) (s + 1) (n - 1) with
    | Option.none =>
      ⟨false, "* Tundra not found after EditorCompilation:InvokeCompilationStarted", []⟩
    | some t =>
      match findLastIn (lineContains lines outputMarker) (s + 1) (t - 1) with
      | Option.none =>
        ⟨true,
          "No errors found in this compilation. (# Output not found before * Tundra (from "
            ++ toString s ++ " to " ++ toString t ++ "))", []⟩
      | some o =>
        let logs := extractEntries lines (o + 1) t
        ⟨true,
          "Successfully read " ++ toString logs.length
            ++ " compilation records (from " ++ toString o ++ " to "
            ++ toString t ++ ")", logs⟩

/-- Function `UnityCompileCore.parse_compilation_logs` (unity_compile_core.py lines
75-151): reads the file, then runs the marker scans; an exception while
reading is caught and reported as `"Error reading log: ..."`. -/
def parse_compilation_logs (fs : FileSystem) (path : String) : CompileResult :=
  match fs.readLines path with
  | Except.error e => ⟨false, "Error reading log: " ++ e, []⟩
  | Except.ok lines => parse_lines lines

/-- Function `UnityCompileCore.trigger_compilation_via_unity` (unity_compile_core.py
lines 18-56).  `guc` is the behaviour of `get_unity_connection()` (which
may raise or return a falsy connection); every exception is caught and
turned into `False`.  The `time.sleep(3)` settle wait has no observable
effect in the model. -/
def trigger_compilation_via_unity (guc : Except String (Option Bridge))
    (unity_connection : Option Bridge) : Bool :=
  let connR : Except String (Option Bridge) :=
    match unity_connection with
    | Option.none => guc
    | some b => Except.ok (some b)
  match connR with
  | Except.error _ => false
  | Except.ok Option.none => false
  | Except.ok (some b) =>
    match b.send_command "project_files_refresher" [] with
    | Except.error _ => false
    | Except.ok resp =>
      let success := dictGetD resp "success" (PyVal.bool true)
      let success := if (dictGet resp "error").isNone then PyVal.bool true else success
      truthy success

/-- The WSL fallback path `f"/mnt/c/Users/{user}/AppData/Local"` used when
`LOCALAPPDATA` is absent or empty. -/
def wslFallback (env : String → Option String) : String :=
  "/mnt/c/Users/" ++ ((env "USER").getD "Unknown") ++ "/AppData/Local"

/-- The candidate path `Path(localappdata) / "Unity" / "Editor" /
"Editor.log"` computed by `get_editor_log_path`, before the existence
check.  Path joining is modelled as `/`-separated concatenation. -/
def editor_log_candidate (env : String → Option String) : String :=
  let localappdata :=
    match env "LOCALAPPDATA" with
    | some v => if v ≠ "" then v else wslFallback env
    | Option.none => wslFallback env
  localappdata ++ "/Unity/Editor/Editor.log"

/-- Function `UnityCompileCore.get_editor_log_path` (unity_compile_core.py lines
58-73): `None` when the candidate path does not exist. -/
def get_editor_log_path (env : String → Option String) (fs : FileSystem) :
    Option String :=
  let p := editor_log_candidate env
  if fs.fileExists p then some p else Option.none

/-- Function `UnityCompileCore.compile_project` (unity_compile_core.py lines
153-198): optionally trigger (result only logged), resolve the log path,
then delegate to `parse_compilation_logs`. -/
def compile_project (guc : Except String (Option Bridge))
    (env : String → Option String) (fs : FileSystem)
    (unity_connection : Option Bridge) (skip_trigger : Bool) : CompileResult :=
  let _triggered :=
    if !skip_trigger then trigger_compilation_via_unity guc unity_connection
    else true
  match get_editor_log_path env fs with
  | Option.none => ⟨false, "Unity Editor.log not found", []⟩
  | some p => parse_compilation_logs fs p

end UnityCompileCore

namespace Server

/-- The inline log-extraction block of the static `compile_project` tool
(server.py lines 243-296), over the in-memory line list.  It duplicates
`UnityCompileCore.parse_lines` except that a missing `"# Output"` marker is
reported as a failure, and the success message differs. -/
def extract_compilation_logs (lines : List String) : CompileResult :=
  let n := lines.length
  match findLastIn (lineContains lines startMarker) 0 (n - 1) with
  | Option.none =>
    ⟨false, "EditorCompilation:InvokeCompilationStarted marker not found", []⟩
  | some s =>
    match findLastIn (lineContains lines sectionMarker) (s + 1) (n - 1) with
    | Option.none =>
      ⟨false, "* Tundra not found after EditorCompilation:InvokeCompilationStarted", []⟩
    | some t =>
      match findLastIn (lineContains lines outputMarker) (s + 1) (t - 1) with
      | Option.none =>
        ⟨false,
          "# Output not found before * Tundra from " ++ toString s ++ " to "
            ++ toString t, []⟩
      | some o =>
        let logs := extractEntries lines (o + 1) t
        ⟨true,
          "Successfully read " ++ toString logs.length
            ++ " lines of compilation records from " ++ toString o ++ " to "
            ++ toString t, logs⟩

end Server

/-! ## Characterization of the backward scans -/

theorem findLastIn_eq_some (pred : Nat → Bool) (lo : Nat) :
    ∀ hi j, lo ≤ j → j ≤ hi → pred j = true →
      (∀ k, k ≤ hi → j < k → pred k = false) →
      findLastIn pred lo hi = some j := by
  intro hi
  induction hi with
  | zero =>
    intro j hlo hj hp _
    have hj0 : j = 0 := by omega
    subst hj0
    simp only [findLastIn]
    rw [if_neg (show ¬0 < lo by omega), if_pos hp]
  | succ h ih =>
    intro j hlo hj hp hlast
    simp only [findLastIn]
    rw [if_neg (show ¬h + 1 < lo by omega)]
    by_cases hc : j = h + 1
    · subst hc
      rw [if_pos hp]
    · have hph : pred (h + 1) = false := hlast (h + 1) (Nat.le_refl _) (by omega)
      rw [if_neg (by simp [hph])]
      exact ih j hlo (by omega) hp (fun k hk hjk => hlast k (by omega) hjk)

theorem findLastIn_eq_none (pred : Nat → Bool) (lo : Nat) :
    ∀ hi, (∀ k, lo ≤ k → k ≤ hi → pred k = false) →
      findLastIn pred lo hi = none := by
  intro hi
  induction hi with
  | zero =>
    intro hall
    simp only [findLastIn]
    by_cases h1 : 0 < lo
    · rw [if_pos h1]
    · rw [if_neg h1,
        if_neg (by simp [hall 0 (by omega) (Nat.le_refl _)])]
  | succ h ih =>
    intro hall
    simp only [findLastIn]
    by_cases h1 : h + 1 < lo
    · rw [if_pos h1]
    · rw [if_neg h1,
        if_neg (by simp [hall (h + 1) (by omega) (Nat.le_refl _)])]
      exact ih (fun k hk1 hk2 => hall k hk1 (by omega))

/-! ## Claim theorems -/

/-- Claim C1: for every log line sequence in which the start marker, the
section marker and the output marker all occur in the most recent session
with the start marker earliest — `s` is the last start-marker line, `t`
the last section-marker line after it, `o` the last output-marker line
between them — both log-extraction implementations succeed and return
exactly the whitespace-trimmed, non-empty lines strictly between `o` and
`t`, preserving order. -/
theorem marker_window_extraction (lines : List String) (s t o : Nat)
    (hslen : s < lines.length)
    (hs : lineContains lines startMarker s = true)
    (hs_last : ∀ k, k < lines.length → s < k →
      lineContains lines startMarker k = false)
    (hst : s < t) (htlen : t < lines.length)
    (ht : lineContains lines sectionMarker t = true)
    (ht_last : ∀ k, k < lines.length → t < k →
      lineContains lines sectionMarker k = false)
    (hso : s < o) (hot : o < t)
    (ho : lineContains lines outputMarker o = true)
    (ho_last : ∀ k, k < t → o < k →
      lineContains lines outputMarker k = false) :
    (UnityCompileCore.parse_lines lines).success = true ∧
    (UnityCompileCore.parse_lines lines).compilation_logs =
      ((List.range' (o + 1) (t - (o + 1))).map
        (fun i => pyStrip (lines.getD i ""))).filter (fun l => l ≠ "") ∧
    (Server.extract_compilation_logs lines).success = true ∧
    (Server.extract_compilation_logs lines).compilation_logs =
      ((List.range' (o + 1) (t - (o + 1))).map
        (fun i => pyStrip (lines.getD i ""))).filter (fun l => l ≠ "") := by
  have h1 : findLastIn (lineContains lines startMarker) 0
      (lines.length - 1) = some s :=
    findLastIn_eq_some _ _ _ s (Nat.zero_le s) (by omega) hs
      (fun k hk hjk => hs_last k (by omega) hjk)
  have h2 : findLastIn (lineContains lines sectionMarker) (s + 1)
      (lines.length - 1) = some t :=
    findLastIn_eq_some _ _ _ t (by omega) (by omega) ht
      (fun k hk hjk => ht_last k (by omega) hjk)
  have h3 : findLastIn (lineContains lines outputMarker) (s + 1)
      (t - 1) = some o :=
    findLastIn_eq_some _ _ _ o (by omega) (by omega) ho
      (fun k hk hjk => ho_last k (by omega) hjk)
  refine ⟨?_, ?_, ?_, ?_⟩ <;>
    simp [UnityCompileCore.parse_lines, Server.extract_compilation_logs,
      h1, h2, h3, extractEntries]

/-- A line index at or beyond the end of the file reads as the empty line,
which contains no non-empty marker. -/
theorem lineContains_ge_length {lines : List String} {marker : String}
    {k : Nat} (hk : lines.length ≤ k) (hm : pyIn marker "" = false) :
    lineContains lines marker k = false := by
  unfold lineContains
  rw [List.getD_eq_default _ _ hk]
  exact hm

/-- Claim C2 (amended): on a log whose most recent session has the start
marker (last start line `s`), a section marker after it (last such line
`t`), and no output marker strictly between them, the core extractor
`UnityCompileCore.parse_compilation_logs` returns success with an empty
entries list, while the inline extraction of server.py's `compile_project`
instead returns a failure (also with empty entries). -/
theorem no_output_section (lines : List String) (s t : Nat)
    (hslen : s < lines.length)
    (hs : lineContains lines startMarker s = true)
    (hs_last : ∀ k, k < lines.length → s < k →
      lineContains lines startMarker k = false)
    (hst : s < t) (htlen : t < lines.length)
    (ht : lineContains lines sectionMarker t = true)
    (ht_last : ∀ k, k < lines.length → t < k →
      lineContains lines sectionMarker k = false)
    (hno : ∀ k, k < t → s < k →
      lineContains lines outputMarker k = false) :
    (UnityCompileCore.parse_lines lines).success = true ∧
    (UnityCompileCore.parse_lines lines).compilation_logs = [] ∧
    (Server.extract_compilation_logs lines).success = false ∧
    (Server.extract_compilation_logs lines).compilation_logs = [] := by
  have h1 : findLastIn (lineContains lines startMarker) 0
      (lines.length - 1) = some s :=
    findLastIn_eq_some _ _ _ s (Nat.zero_le s) (by omega) hs
      (fun k hk hjk => hs_last k (by omega) hjk)
  have h2 : findLastIn (lineContains lines sectionMarker) (s + 1)
      (lines.length - 1) = some t :=
    findLastIn_eq_some _ _ _ t (by omega) (by omega) ht
      (fun k hk hjk => ht_last k (by omega) hjk)
  have h3 : findLastIn (lineContains lines outputMarker) (s + 1)
      (t - 1) = none :=
    findLastIn_eq_none _ _ _ (fun k hk1 hk2 => hno k (by omega) (by omega))
  refine ⟨?_, ?_, ?_, ?_⟩ <;>
    simp [UnityCompileCore.parse_lines, Server.extract_compilation_logs,
      h1, h2, h3]

/-- Claim C2 counterexample: the log `[start, section]` contains the start
marker and then the section marker with no output marker between them, yet
the inline extraction of server.py's `compile_project` (one of the claim's
code locations) returns a failure, contradicting the claim's "never a
failure". -/
theorem no_output_section_counterexample :
    lineContains ["EditorCompilation:InvokeCompilationStarted", "* Tundra"]
      startMarker 0 = true ∧
    lineContains ["EditorCompilation:InvokeCompilationStarted", "* Tundra"]
      sectionMarker 1 = true ∧
    (Server.extract_compilation_logs
      ["EditorCompilation:InvokeCompilationStarted", "* Tundra"]).success
      = false := by
  decide

/-- Claim C4: extraction fails, with an empty entries list and a message
naming the missing marker, (a) when no line contains the start marker, and
(b) when the start marker's last occurrence `s` has no section-marker line
strictly after it.  Both implementations agree on these branches. -/
theorem missing_marker_failures (lines : List String) :
    ((∀ k, k < lines.length → lineContains lines startMarker k = false) →
      UnityCompileCore.parse_lines lines =
        ⟨false, "EditorCompilation:InvokeCompilationStarted marker not found", []⟩ ∧
      Server.extract_compilation_logs lines =
        ⟨false, "EditorCompilation:InvokeCompilationStarted marker not found", []⟩ ∧
      pyIn startMarker
        "EditorCompilation:InvokeCompilationStarted marker not found" = true) ∧
    (∀ s, s < lines.length → lineContains lines startMarker s = true →
      (∀ k, k < lines.length → s < k →
        lineContains lines startMarker k = false) →
      (∀ k, k < lines.length → s < k →
        lineContains lines sectionMarker k = false) →
      UnityCompileCore.parse_lines lines =
        ⟨false, "* Tundra not found after EditorCompilation:InvokeCompilationStarted", []⟩ ∧
      Server.extract_compilation_logs lines =
        ⟨false, "* Tundra not found after EditorCompilation:InvokeCompilationStarted", []⟩ ∧
      pyIn sectionMarker
        "* Tundra not found after EditorCompilation:InvokeCompilationStarted" = true) := by
  constructor
  · intro hA
    have h1 : findLastIn (lineContains lines startMarker) 0
        (lines.length - 1) = none := by
      refine findLastIn_eq_none _ _ _ (fun k hk1 hk2 => ?_)
      by_cases hkn : k < lines.length
      · exact hA k hkn
      · exact lineContains_ge_length (by omega) (by decide)
    refine ⟨?_, ?_, by decide⟩ <;>
      simp [UnityCompileCore.parse_lines, Server.extract_compilation_logs, h1]
  · intro s hslen hs hs_last hB
    have h1 : findLastIn (lineContains lines startMarker) 0
        (lines.length - 1) = some s :=
      findLastIn_eq_some _ _ _ s (Nat.zero_le s) (by omega) hs
        (fun k hk hjk => hs_last k (by omega) hjk)
    have h2 : findLastIn (lineContains lines sectionMarker) (s + 1)
        (lines.length - 1) = none :=
      findLastIn_eq_none _ _ _ (fun k hk1 hk2 => hB k (by omega) (by omega))
    refine ⟨?_, ?_, by decide⟩ <;>
      simp [UnityCompileCore.parse_lines, Server.extract_compilation_logs,
        h1, h2]

/-- Concrete instance of the marker-window extraction: the spec's example
log, with the last start line at 1, the output line at 3 and the section
line at 7, yields exactly the trimmed non-empty lines between them. -/
theorem marker_window_extraction_witness :
    (UnityCompileCore.parse_lines ["junk",
      "EditorCompilation:InvokeCompilationStarted", "junk", "  # Output",
      "ErrorA", "", "ErrorB", "* Tundra done"]).success = true ∧
    (UnityCompileCore.parse_lines ["junk",
      "EditorCompilation:InvokeCompilationStarted", "junk", "  # Output",
      "ErrorA", "", "ErrorB", "* Tundra done"]).compilation_logs
      = ["ErrorA", "ErrorB"] ∧
    (Server.extract_compilation_logs ["junk",
      "EditorCompilation:InvokeCompilationStarted", "junk", "  # Output",
      "ErrorA", "", "ErrorB", "* Tundra done"]).compilation_logs
      = ["ErrorA", "ErrorB"] := by
  have h := marker_window_extraction ["junk",
      "EditorCompilation:InvokeCompilationStarted", "junk", "  # Output",
      "ErrorA", "", "ErrorB", "* Tundra done"] 1 7 3
    (by decide) (by decide) (by decide) (by decide) (by decide) (by decide)
    (by decide) (by decide) (by decide) (by decide) (by decide)
  refine ⟨h.1, ?_, ?_⟩
  · rw [h.2.1]; decide
  · rw [h.2.2.2]; decide

/-- Concrete instance of the no-output-section behaviour: start line at 0,
section line at 2, no output marker between them; the core extractor
succeeds with an empty list while the server's inline extraction fails. -/
theorem no_output_section_witness :
    (UnityCompileCore.parse_lines
      ["EditorCompilation:InvokeCompilationStarted", "mid",
        "* Tundra"]).success = true ∧
    (UnityCompileCore.parse_lines
      ["EditorCompilation:InvokeCompilationStarted", "mid",
        "* Tundra"]).compilation_logs = [] ∧
    (Server.extract_compilation_logs
      ["EditorCompilation:InvokeCompilationStarted", "mid",
        "* Tundra"]).success = false :=
  have h := no_output_section
    ["EditorCompilation:InvokeCompilationStarted", "mid", "* Tundra"] 0 2
    (by decide) (by decide) (by decide) (by decide) (by decide) (by decide)
    (by decide) (by decide)
  ⟨h.1, h.2.1, h.2.2.1⟩

/-- Concrete instances of the two missing-marker failures: a log without
the start marker, and a log whose start marker has no section marker after
it. -/
theorem missing_marker_failures_witness :
    UnityCompileCore.parse_lines ["nothing to see"] =
      ⟨false, "EditorCompilation:InvokeCompilationStarted marker not found", []⟩ ∧
    UnityCompileCore.parse_lines
      ["* Tundra", "EditorCompilation:InvokeCompilationStarted"] =
      ⟨false, "* Tundra not found after EditorCompilation:InvokeCompilationStarted", []⟩ :=
  have hA := (missing_marker_failures ["nothing to see"]).1 (by decide)
  have hB := (missing_marker_failures
    ["* Tundra", "EditorCompilation:InvokeCompilationStarted"]).2 1
    (by decide) (by decide) (by decide) (by decide)
  ⟨hA.1, hB.1⟩

/-- The environment a dynamic tool invocation sees: the optional bridge
attached to the request context (`getattr(ctx, 'bridge', None)`), and the
behaviour of `get_unity_connection()` (which may raise, or return a falsy
connection). -/
structure ToolEnv where
  ctx_bridge : Option Bridge
  get_unity_connection : Except String (Option Bridge)

namespace Server

/-- The body of `tool_func` after a bridge has been resolved (server.py
lines 101-114): forward the command, then map the response. -/
def tool_func_send (b : Bridge) (cmd_type : String) (kwargs : PyDict) : PyDict :=
  match b.send_command cmd_type kwargs with
  | Except.error e =>
    [("success", PyVal.bool false), ("message", PyVal.str ("Error: " ++ e))]
  | Except.ok resp =>
    if truthy (dictGetD resp "success" PyVal.none) then
      [("success", PyVal.bool true),
       ("message", dictGetD resp "message" (PyVal.str "Operation successful")),
       ("data", dictGetD resp "data" PyVal.none)]
    else
      [("success", PyVal.bool false),
       ("message", dictGetD resp "error" (PyVal.str "Unknown error"))]

/-- The dynamically created `tool_func` (server.py lines 91-116): resolve a
bridge from the context or via `get_unity_connection()`, forward the
command, map the result; every exception is caught and becomes
`{"success": False, "message": "Error: ..."}`. -/
def tool_func (env : ToolEnv) (cmd_type : String) (kwargs : PyDict) : PyDict :=
  match env.ctx_bridge with
  | some b => tool_func_send b cmd_type kwargs
  | Option.none =>
    match env.get_unity_connection with
    | Except.error e =>
      [("success", PyVal.bool false), ("message", PyVal.str ("Error: " ++ e))]
    | Except.ok Option.none =>
      [("success", PyVal.bool false),
       ("message", PyVal.str "Unity connection not available")]
    | Except.ok (some b) => tool_func_send b cmd_type kwargs

/-- Python `command_type.replace('-', '_')` on the character list: the
single-character pattern makes the general left-to-right scan-and-replace
degenerate to replacing each matching character. -/
def pyReplaceDash : List Char → List Char
  | [] => []
  | c :: rest =>
    if c = '-' then '_' :: pyReplaceDash rest else c :: pyReplaceDash rest

/-- Python `tool_meta.get("CommandType") or tool_meta.get("commandType")`:
Python `or` keeps the first operand when it is truthy. -/
def getCommandTypeVal (m : PyDict) : PyVal :=
  let a := dictGetD m "CommandType" PyVal.none
  if truthy a then a else dictGetD m "commandType" PyVal.none

/-- Function `register_dynamic_unity_tools` (server.py lines 44-144), projected to
the sequence of externally exposed tool names: a descriptor with a falsy
command type is skipped (logged), a non-string command type raises inside
the per-tool `try` and is likewise skipped, and otherwise the tool is
registered under `command_type.replace('-', '_')`. -/
def register_dynamic_unity_tools (tools_metadata : List PyDict) : List String :=
  tools_metadata.filterMap (fun m =>
    let ct := getCommandTypeVal m
    if truthy ct then
      match ct with
      | PyVal.str s => some (String.mk (pyReplaceDash s.data))
      | _ => Option.none
    else Option.none)

end Server

/-- Claim C3: a dynamic tool invocation always returns a structured dict
whose `"success"` entry is a boolean and which carries a `"message"`
entry; and whenever an exception is raised internally — by
`get_unity_connection()` or by `send_command` — the result is exactly
`{"success": False, "message": "Error: <description>"}`.  No exception
escapes: `tool_func` is total by construction. -/
theorem dynamic_dispatch_never_throws (env : ToolEnv) (c : String)
    (k : PyDict) :
    ((dictGet (Server.tool_func env c k) "success" = some (PyVal.bool true) ∨
      dictGet (Server.tool_func env c k) "success" = some (PyVal.bool false)) ∧
     (∃ v, dictGet (Server.tool_func env c k) "message" = some v)) ∧
    (∀ e, env.ctx_bridge = none → env.get_unity_connection = Except.error e →
      Server.tool_func env c k =
        [("success", PyVal.bool false),
         ("message", PyVal.str ("Error: " ++ e))]) ∧
    (∀ b e, (env.ctx_bridge = some b ∨
        (env.ctx_bridge = none ∧
         env.get_unity_connection = Except.ok (some b))) →
      b.send_command c k = Except.error e →
      Server.tool_func env c k =
        [("success", PyVal.bool false),
         ("message", PyVal.str ("Error: " ++ e))]) := by
  refine ⟨?_, ?_, ?_⟩
  · have hsend : ∀ b : Bridge,
        (dictGet (Server.tool_func_send b c k) "success"
            = some (PyVal.bool true) ∨
         dictGet (Server.tool_func_send b c k) "success"
            = some (PyVal.bool false)) ∧
        (∃ v, dictGet (Server.tool_func_send b c k) "message" = some v) := by
      intro b
      unfold Server.tool_func_send
      rcases b.send_command c k with e | resp
      · exact ⟨Or.inr rfl, ⟨_, rfl⟩⟩
      · by_cases ht : truthy (dictGetD resp "success" PyVal.none)
        · simp only [ht, if_true]
          exact ⟨Or.inl rfl, ⟨_, rfl⟩⟩
        · simp only [ht, if_false]
          exact ⟨Or.inr rfl, ⟨_, rfl⟩⟩
    unfold Server.tool_func
    rcases env.ctx_bridge with _ | b
    · rcases env.get_unity_connection with e | ob
      · exact ⟨Or.inr rfl, ⟨_, rfl⟩⟩
      · rcases ob with _ | b
        · exact ⟨Or.inr rfl, ⟨_, rfl⟩⟩
        · exact hsend b
    · exact hsend b
  · intro e h1 h2
    simp [Server.tool_func, h1, h2]
  · intro b e hb hsend
    rcases hb with hb | ⟨hb1, hb2⟩
    · simp [Server.tool_func, Server.tool_func_send, hb, hsend]
    · simp [Server.tool_func, Server.tool_func_send, hb1, hb2, hsend]

/-- Concrete instances of the exception-to-result conversion: a raising
`get_unity_connection` and a raising `send_command` both surface as
`{"success": False, "message": "Error: ..."}`. -/
theorem dynamic_dispatch_never_throws_witness :
    Server.tool_func ⟨none, Except.error "boom"⟩ "cmd" [] =
      [("success", PyVal.bool false),
       ("message", PyVal.str "Error: boom")] ∧
    Server.tool_func
      ⟨some ⟨fun _ _ => Except.error "socket closed"⟩, Except.ok none⟩
      "cmd" [] =
      [("success", PyVal.bool false),
       ("message", PyVal.str "Error: socket closed")] :=
  ⟨(dynamic_dispatch_never_throws ⟨none, Except.error "boom"⟩ "cmd" []).2.1
      "boom" rfl rfl,
   (dynamic_dispatch_never_throws
      ⟨some ⟨fun _ _ => Except.error "socket closed"⟩, Except.ok none⟩
      "cmd" []).2.2 ⟨fun _ _ => Except.error "socket closed"⟩
      "socket closed" (Or.inl rfl) rfl⟩

/-- Claim C5: once a bridge is resolved (from the context or obtained
anew) and the forwarded command yields a response dict, a truthy
`"success"` flag produces `{"success": True, "message": <the response's
message>, "data": <the response's data, None when absent>}`, and a falsy
flag produces `{"success": False, "message": <the response's "error"
entry, or "Unknown error" when absent>}`. -/
theorem command_result_mapping (env : ToolEnv) (b : Bridge) (c : String)
    (k resp : PyDict)
    (hb : env.ctx_bridge = some b ∨
      (env.ctx_bridge = none ∧
       env.get_unity_connection = Except.ok (some b)))
    (hsend : b.send_command c k = Except.ok resp) :
    (∀ m, truthy (dictGetD resp "success" PyVal.none) = true →
      dictGet resp "message" = some m →
      Server.tool_func env c k =
        [("success", PyVal.bool true), ("message", m),
         ("data", dictGetD resp "data" PyVal.none)]) ∧
    (truthy (dictGetD resp "success" PyVal.none) = false →
      Server.tool_func env c k =
        [("success", PyVal.bool false),
         ("message", dictGetD resp "error" (PyVal.str "Unknown error"))]) := by
  have hred : Server.tool_func env c k = Server.tool_func_send b c k := by
    rcases hb with hb | ⟨hb1, hb2⟩
    · simp [Server.tool_func, hb]
    · simp [Server.tool_func, hb1, hb2]
  constructor
  · intro m htruthy hmsg
    rw [hred]
    simp only [Server.tool_func_send, hsend]
    rw [if_pos htruthy]
    simp [dictGetD, hmsg]
  · intro hfalsy
    rw [hred]
    simp only [Server.tool_func_send, hsend]
    rw [if_neg (by simp [hfalsy])]

/-- Concrete instances of the CommandResult mapping, one per branch:
an executor success is surfaced with its message and data, and an
executor failure without an error string becomes "Unknown error". -/
theorem command_result_mapping_witness :
    Server.tool_func
      ⟨some ⟨fun _ _ => Except.ok
        [("success", PyVal.bool true), ("message", PyVal.str "done"),
         ("data", PyVal.int 7)]⟩, Except.ok none⟩ "c" [] =
      [("success", PyVal.bool true), ("message", PyVal.str "done"),
       ("data", PyVal.int 7)] ∧
    Server.tool_func
      ⟨some ⟨fun _ _ => Except.ok [("success", PyVal.bool false)]⟩,
       Except.ok none⟩ "c" [] =
      [("success", PyVal.bool false),
       ("message", PyVal.str "Unknown error")] :=
  ⟨((command_result_mapping
      ⟨some ⟨fun _ _ => Except.ok
        [("success", PyVal.bool true), ("message", PyVal.str "done"),
         ("data", PyVal.int 7)]⟩, Except.ok none⟩
      ⟨fun _ _ => Except.ok
        [("success", PyVal.bool true), ("message", PyVal.str "done"),
         ("data", PyVal.int 7)]⟩ "c" []
      [("success", PyVal.bool true), ("message", PyVal.str "done"),
       ("data", PyVal.int 7)] (Or.inl rfl) rfl).1 (PyVal.str "done") rfl rfl),
   ((command_result_mapping
      ⟨some ⟨fun _ _ => Except.ok [("success", PyVal.bool false)]⟩,
       Except.ok none⟩
      ⟨fun _ _ => Except.ok [("success", PyVal.bool false)]⟩ "c" []
      [("success", PyVal.bool false)] (Or.inl rfl) rfl).2 rfl)⟩

/-- Claim C6: when the context carries no bridge and
`get_unity_connection()` returns no (falsy) connection, the invocation
returns `{"success": False, "message": "Unity connection not
available"}`. -/
theorem connection_unavailable (env : ToolEnv) (c : String) (k : PyDict)
    (h1 : env.ctx_bridge = none)
    (h2 : env.get_unity_connection = Except.ok none) :
    Server.tool_func env c k =
      [("success", PyVal.bool false),
       ("message", PyVal.str "Unity connection not available")] := by
  simp [Server.tool_func, h1, h2]

/-- Concrete instance of the missing-connection precondition. -/
theorem connection_unavailable_witness :
    Server.tool_func ⟨none, Except.ok none⟩ "manage_scene" [] =
      [("success", PyVal.bool false),
       ("message", PyVal.str "Unity connection not available")] :=
  connection_unavailable ⟨none, Except.ok none⟩ "manage_scene" [] rfl rfl

theorem pyReplaceDash_eq_map :
    ∀ l : List Char,
      Server.pyReplaceDash l = l.map (fun c => if c = '-' then '_' else c) := by
  intro l
  induction l with
  | nil => rfl
  | cons c rest ih =>
    by_cases hc : c = '-'
    · simp [Server.pyReplaceDash, hc, ih]
    · simp [Server.pyReplaceDash, hc, ih]

/-- Claim C8: every registered tool descriptor whose resolved command name
is the (non-empty) string `s` is exposed under the name obtained from `s`
by replacing every '-' character with '_'. -/
theorem registered_name_normalization (metas : List PyDict) (m : PyDict)
    (s : String) (hm : m ∈ metas)
    (hct : Server.getCommandTypeVal m = PyVal.str s) (hs : s ≠ "") :
    String.mk (Server.pyReplaceDash s.data) ∈
      Server.register_dynamic_unity_tools metas ∧
    Server.pyReplaceDash s.data =
      s.data.map (fun c => if c = '-' then '_' else c) := by
  constructor
  · refine List.mem_filterMap.mpr ⟨m, hm, ?_⟩
    simp [hct, truthy, hs]
  · exact pyReplaceDash_eq_map s.data

/-- Concrete instance of tool-name normalization: the descriptor
`{"CommandType": "manage-scene"}` is registered as `manage_scene`. -/
theorem registered_name_normalization_witness :
    "manage_scene" ∈ Server.register_dynamic_unity_tools
      [[("CommandType", PyVal.str "manage-scene")]] := by
  have h := registered_name_normalization
    [[("CommandType", PyVal.str "manage-scene")]]
    [("CommandType", PyVal.str "manage-scene")] "manage-scene"
    (List.mem_singleton_self _) rfl (by decide)
  exact h.1

/-- Claim C9: a dict response to the trigger-rebuild command that has no
"error" key makes `trigger_compilation_via_unity` report success, whatever
the rest of the response says — including an explicit
`"success": False`. -/
theorem trigger_no_error_key (guc : Except String (Option Bridge))
    (b : Bridge) (resp : PyDict)
    (hsend : b.send_command "project_files_refresher" [] = Except.ok resp)
    (hne : dictGet resp "error" = none) :
    UnityCompileCore.trigger_compilation_via_unity guc (some b) = true := by
  simp [UnityCompileCore.trigger_compilation_via_unity, hsend, hne, truthy]

/-- Concrete instance: a response that explicitly reports
`{"success": False}` but carries no "error" key is still treated as a
successful trigger. -/
theorem trigger_no_error_key_witness :
    dictGet [("success", PyVal.bool false)] "success"
      = some (PyVal.bool false) ∧
    UnityCompileCore.trigger_compilation_via_unity (Except.ok none)
      (some ⟨fun _ _ => Except.ok [("success", PyVal.bool false)]⟩) = true :=
  ⟨rfl,
   trigger_no_error_key (Except.ok none)
     ⟨fun _ _ => Except.ok [("success", PyVal.bool false)]⟩
     [("success", PyVal.bool false)] rfl rfl⟩

/-- Claim C7: `compile_project` with `skip_trigger = True` returns exactly
`{"success": False, "message": "Unity Editor.log not found",
"compilation_logs": []}` whenever the resolved Editor.log path does not
exist. -/
theorem log_missing_failure (guc : Except String (Option Bridge))
    (env : String → Option String) (fs : FileSystem)
    (conn : Option Bridge)
    (h : fs.fileExists (UnityCompileCore.editor_log_candidate env) = false) :
    UnityCompileCore.compile_project guc env fs conn true =
      ⟨false, "Unity Editor.log not found", []⟩ := by
  simp [UnityCompileCore.compile_project, UnityCompileCore.get_editor_log_path,
    h]

/-- Concrete instance: an empty environment and a file system on which no
path exists produce the exact "Unity Editor.log not found" failure. -/
theorem log_missing_failure_witness :
    UnityCompileCore.compile_project (Except.ok none) (fun _ => none)
      ⟨fun _ => false, fun _ => Except.error "unreadable"⟩ none true =
      ⟨false, "Unity Editor.log not found", []⟩ :=
  log_missing_failure (Except.ok none) (fun _ => none)
    ⟨fun _ => false, fun _ => Except.error "unreadable"⟩ none rfl

theorem parse_lines_failure_empty (lines : List String)
    (hfail : (UnityCompileCore.parse_lines lines).success = false) :
    (UnityCompileCore.parse_lines lines).compilation_logs = [] := by
  rcases h1 : findLastIn (lineContains lines startMarker) 0
      (lines.length - 1) with _ | s
  · simp [UnityCompileCore.parse_lines, h1]
  · rcases h2 : findLastIn (lineContains lines sectionMarker) (s + 1)
        (lines.length - 1) with _ | t
    · simp [UnityCompileCore.parse_lines, h1, h2]
    · rcases h3 : findLastIn (lineContains lines outputMarker) (s + 1)
          (t - 1) with _ | o
      · simp [UnityCompileCore.parse_lines, h1, h2, h3] at hfail
      · simp [UnityCompileCore.parse_lines, h1, h2, h3] at hfail

theorem parse_compilation_logs_failure_empty (fs : FileSystem)
    (path : String)
    (hfail : (UnityCompileCore.parse_compilation_logs fs path).success
      = false) :
    (UnityCompileCore.parse_compilation_logs fs path).compilation_logs
      = [] := by
  rcases hr : fs.readLines path with e | lines
  · simp [UnityCompileCore.parse_compilation_logs, hr]
  · have hl : UnityCompileCore.parse_compilation_logs fs path =
        UnityCompileCore.parse_lines lines := by
      simp [UnityCompileCore.parse_compilation_logs, hr]
    rw [hl]
    rw [hl] at hfail
    exact parse_lines_failure_empty lines hfail

/-- Claim C10: every result of `parse_compilation_logs` and of
`compile_project` is the three-field record `{"success", "message",
"compilation_logs"}` (by construction of `CompileResult`, the shape of
every return site), and a false `"success"` flag always comes with an
empty `"compilation_logs"` list. -/
theorem result_shape_invariant (guc : Except String (Option Bridge))
    (env : String → Option String) (fs : FileSystem) (path : String)
    (conn : Option Bridge) (skip_trigger : Bool) :
    ((UnityCompileCore.parse_compilation_logs fs path).success = false →
      (UnityCompileCore.parse_compilation_logs fs path).compilation_logs
        = []) ∧
    ((UnityCompileCore.compile_project guc env fs conn
        skip_trigger).success = false →
      (UnityCompileCore.compile_project guc env fs conn
        skip_trigger).compilation_logs = []) := by
  constructor
  · exact parse_compilation_logs_failure_empty fs path
  · intro hfail
    rcases hp : UnityCompileCore.get_editor_log_path env fs with _ | p
    · simp [UnityCompileCore.compile_project, hp]
    · have hc : UnityCompileCore.compile_project guc env fs conn
          skip_trigger = UnityCompileCore.parse_compilation_logs fs p := by
        simp [UnityCompileCore.compile_project, hp]
      rw [hc]
      rw [hc] at hfail
      exact parse_compilation_logs_failure_empty fs p hfail

/-- Concrete instance of the failure-shape invariant: an unreadable log
file fails with an empty compilation_logs list through both entry
points. -/
theorem result_shape_invariant_witness :
    (UnityCompileCore.parse_compilation_logs
      ⟨fun _ => true, fun _ => Except.error "denied"⟩ "p").success
        = false ∧
    (UnityCompileCore.parse_compilation_logs
      ⟨fun _ => true, fun _ => Except.error "denied"⟩ "p").compilation_logs
        = [] ∧
    (UnityCompileCore.compile_project (Except.ok none) (fun _ => none)
      ⟨fun _ => true, fun _ => Except.error "denied"⟩ none
      true).compilation_logs = [] :=
  have h := result_shape_invariant (Except.ok none) (fun _ => none)
    ⟨fun _ => true, fun _ => Except.error "denied"⟩ "p" none true
  ⟨rfl, h.1 rfl, h.2 rfl⟩
